import Mathlib

/-!
Verification development for the sandbox-pool / agent-task-lifecycle core of
the computer-use-agent backend (`cua2_core`).

The Python services are embedded shallowly:

* `cua2_core/services/sandbox_service.py` — `SandboxService` holds two dicts,
  `sandboxes : dict[str, Sandbox]` and `sandbox_metadata : dict[str, dict]`,
  mutated only inside `sandbox_lock` critical sections.  Each critical section
  is embedded as a pure function from `PoolState` to `PoolState` (plus the
  values returned / handed to out-of-band teardown).  Python dicts become
  association lists with dict-assignment semantics (`insertA` replaces the
  binding for the key); `Sandbox` handles become opaque `Nat` identifiers;
  `datetime` timestamps become `Int` seconds so that `(a - b).total_seconds()`
  is plain `Int` subtraction.
* `cua2_core/services/agent_service.py` — the task registry (`active_tasks`,
  `task_websockets`, `last_screenshot`) and the `_agent_runner` / `step_callback`
  control flow.  Exceptions become explicit exit classifications / `Except`.
* `cua2_core/services/archival_service.py` — the per-folder body of
  `_process_old_folders`, with the outcomes of the external compress / upload /
  verify calls supplied as boolean parameters.
-/

abbrev Key := String

/-! Association-list maps with Python-dict semantics.  `insertA` models
`d[k] = v` (replaces any existing binding), `eraseA` models `del d[k]`,
`lookupA` models `d.get(k)` / `k in d`. -/

def lookupA {α : Type} : List (Key × α) → Key → Option α
  | [], _ => none
  | (k, v) :: rest, key => if k = key then some v else lookupA rest key

def eraseA {α : Type} : List (Key × α) → Key → List (Key × α)
  | [], _ => []
  | (k, v) :: rest, key =>
      if k = key then eraseA rest key else (k, v) :: eraseA rest key

def insertA {α : Type} (m : List (Key × α)) (key : Key) (v : α) : List (Key × α) :=
  (key, v) :: eraseA m key

def updateA {α : Type} (m : List (Key × α)) (key : Key) (f : α → α) : List (Key × α) :=
  m.map (fun p => if p.1 = key then (p.1, f p.2) else p)

/-! ## Sandbox pool (`sandbox_service.py`) -/

/-- Module constant `SANDBOX_CREATION_TIMEOUT = 200` (reuse window, seconds). -/
def SANDBOX_CREATION_TIMEOUT : Int := 200

/-- Module constant `SANDBOX_CREATION_MAX_TIME = 300` (max time in "creating"). -/
def SANDBOX_CREATION_MAX_TIME : Int := 300

/-- The `state` field of a metadata entry.  The Python code only ever stores
the strings `"creating"` and `"ready"` there. -/
inductive SlotState where
  | creating
  | ready
deriving DecidableEq

/-- One `sandbox_metadata[key]` dict: `state`, `created_at`, `last_accessed`. -/
structure SlotMeta where
  state : SlotState
  created_at : Int
  last_accessed : Int
deriving DecidableEq

/-- The mutable state of a `SandboxService` instance: `max_sandboxes`,
`sandboxes` and `sandbox_metadata`. -/
structure PoolState where
  max_sandboxes : Nat
  sandboxes : List (Key × Nat)
  sandbox_metadata : List (Key × SlotMeta)
deriving DecidableEq

/-- `SandboxService.__init__`: both dicts start empty. -/
def initPool (max_sandboxes : Nat) : PoolState :=
  { max_sandboxes := max_sandboxes, sandboxes := [], sandbox_metadata := [] }

/-- The `state` field of `SandboxResponse`. -/
inductive RespState where
  | creating
  | ready
  | max_sandboxes_reached
deriving DecidableEq

/-- Everything `acquire_sandbox` produces: the `SandboxResponse` (fields
`state`, `sandbox`), the pool state after its critical sections, the local
`should_create` flag (whether `_create_sandbox_background` was scheduled), and
the local `expired_sandbox` handed to out-of-band teardown. -/
structure AcquireResult where
  state : RespState
  sandbox : Option Nat
  st : PoolState
  should_create : Bool
  expired_sandbox : Option Nat
deriving DecidableEq

/-- Condition of `acquire_sandbox` lines 123-131: the key has a sandbox, has
metadata in state `"ready"`, and the slot is inside its reuse window. -/
def isFreshReady (st : PoolState) (key : Key) (now : Int) : Bool :=
  (lookupA st.sandboxes key).isSome &&
    match lookupA st.sandbox_metadata key with
    | some m =>
        m.state == SlotState.ready &&
          decide (now - m.created_at < SANDBOX_CREATION_TIMEOUT)
    | none => false

/-- Condition of `acquire_sandbox` lines 139-142: metadata exists for the key
and its state is `"creating"`. -/
def isCreating (st : PoolState) (key : Key) : Bool :=
  match lookupA st.sandbox_metadata key with
  | some m => m.state == SlotState.creating
  | none => false

/-- Number of metadata entries whose state is `"creating"`
(`acquire_sandbox` lines 157-161). -/
def countCreating : List (Key × SlotMeta) → Nat
  | [] => 0
  | p :: rest =>
      (if p.2.state = SlotState.creating then 1 else 0) + countCreating rest

/-- The quantity the capacity check bounds: `len(self.sandboxes)` ready slots
plus the metadata entries in `"creating"` state (line 163). -/
def countLive (st : PoolState) : Nat :=
  st.sandboxes.length + countCreating st.sandbox_metadata

/-- `SandboxService.acquire_sandbox` (lines 115-195), embedded sequentially:
the first locked block decides the branch; when `should_create` is set the
second locked block re-reads the state just written (still `"creating"` before
the background task has interleaved), so the returned response is
`state="creating", sandbox=None` exactly as modelled here. -/
def acquire_sandbox (st : PoolState) (key : Key) (now : Int) : AcquireResult :=
  if isFreshReady st key now then
    { state := RespState.ready
      sandbox := lookupA st.sandboxes key
      st := { st with
        sandbox_metadata :=
          updateA st.sandbox_metadata key (fun m => { m with last_accessed := now }) }
      should_create := false
      expired_sandbox := none }
  else if isCreating st key then
    { state := RespState.creating, sandbox := none, st := st
      should_create := false, expired_sandbox := none }
  else
    let expired_sandbox := lookupA st.sandboxes key
    let st1 :=
      if expired_sandbox.isSome then
        { st with
          sandboxes := eraseA st.sandboxes key
          sandbox_metadata := eraseA st.sandbox_metadata key }
      else st
    let creating_count := countCreating st1.sandbox_metadata
    if st.max_sandboxes ≤ st1.sandboxes.length + creating_count then
      { state := RespState.max_sandboxes_reached, sandbox := none, st := st1
        should_create := false, expired_sandbox := expired_sandbox }
    else
      { state := RespState.creating
        sandbox := none
        st := { st1 with
          sandbox_metadata :=
            insertA st1.sandbox_metadata key
              { state := SlotState.creating, created_at := now, last_accessed := now } }
        should_create := true
        expired_sandbox := expired_sandbox }

/-- `SandboxService._create_sandbox_background` (lines 37-92) from the point
where the external `Sandbox.create` call has finished.  `provisioned` is its
outcome: `some handle` on success, `none` when it raised.  The returned `Bool`
reports whether the freshly provisioned handle was killed as an orphan
(lines 77-85). -/
def create_sandbox_background (st : PoolState) (key : Key)
    (provisioned : Option Nat) : PoolState × Bool :=
  match provisioned with
  | some handle =>
      match lookupA st.sandbox_metadata key with
      | some m =>
          if m.state = SlotState.creating then
            ({ st with
                sandboxes := insertA st.sandboxes key handle
                sandbox_metadata :=
                  updateA st.sandbox_metadata key
                    (fun mm => { mm with state := SlotState.ready }) },
              false)
          else (st, true)
      | none => (st, true)
  | none =>
      ({ st with sandbox_metadata := eraseA st.sandbox_metadata key }, false)

/-- The locked block of `SandboxService.release_sandbox` (lines 197-213):
removes whatever slot and metadata exist for the key and hands back the
detached handle (`sandbox_to_kill`) for teardown outside the lock. -/
def release_sandbox (st : PoolState) (key : Key) : PoolState × Option Nat :=
  (({ st with
      sandboxes := eraseA st.sandboxes key
      sandbox_metadata := eraseA st.sandbox_metadata key }),
    lookupA st.sandboxes key)

/-- The external `sandbox.kill()` call, whose outcome is supplied as `killOk`. -/
def killSandbox (handle : Nat) (killOk : Bool) : Except String Unit :=
  if killOk then Except.ok () else Except.error "kill failed"

/-- The whole of `release_sandbox` including the teardown outside the lock
(lines 215-220): the `except` clause swallows a failing `kill`, so the caller
always receives the post-release state, never an exception. -/
def release_sandbox_run (st : PoolState) (key : Key) (killOk : Bool) :
    Except String PoolState :=
  let r := release_sandbox st key
  match r.2 with
  | some h =>
      match killSandbox h killOk with
      | Except.ok _ => Except.ok r.1
      | Except.error _ => Except.ok r.1
  | none => Except.ok r.1

/-- Condition of `cleanup_stuck_creating_sandboxes` lines 229-235: a metadata
entry in `"creating"` state older than `SANDBOX_CREATION_MAX_TIME`. -/
def isStuck (now : Int) (m : SlotMeta) : Bool :=
  m.state == SlotState.creating &&
    decide (SANDBOX_CREATION_MAX_TIME < now - m.created_at)

/-- The locked block of `cleanup_stuck_creating_sandboxes` (lines 227-246):
every stuck `"creating"` entry is dropped from both dicts. -/
def cleanup_stuck_creating_sandboxes (st : PoolState) (now : Int) : PoolState :=
  let stuckKeys :=
    (st.sandbox_metadata.filter (fun p => isStuck now p.2)).map (fun p => p.1)
  { st with
    sandboxes := st.sandboxes.filter (fun p => !(stuckKeys.contains p.1))
    sandbox_metadata := st.sandbox_metadata.filter (fun p => !(isStuck now p.2)) }

/-- The locked block of `cleanup_sandboxes` (lines 260-269): the loop runs
over `self.sandboxes.keys()`, deleting each such key from `sandboxes` and,
when present, from `sandbox_metadata`.  So `sandboxes` ends empty, while a
metadata entry survives exactly when its key had no sandbox entry — in
particular `"creating"` entries outlive the drain and keep counting toward
capacity. -/
def cleanup_sandboxes (st : PoolState) : PoolState :=
  { st with
    sandboxes := []
    sandbox_metadata :=
      st.sandbox_metadata.filter
        (fun p => !((st.sandboxes.map (fun q => q.1)).contains p.1)) }

/-- One pool operation, i.e. one critical section that can mutate the two
dicts of a `SandboxService`.  `bgFinish` is the tail of a previously spawned
`_create_sandbox_background` task with the given provisioning outcome. -/
inductive PoolOp where
  | acquire (key : Key) (now : Int)
  | bgFinish (key : Key) (provisioned : Option Nat)
  | release (key : Key)
  | cleanupStuck (now : Int)
  | drain

def applyPoolOp (st : PoolState) : PoolOp → PoolState
  | PoolOp.acquire key now => (acquire_sandbox st key now).st
  | PoolOp.bgFinish key provisioned => (create_sandbox_background st key provisioned).1
  | PoolOp.release key => (release_sandbox st key).1
  | PoolOp.cleanupStuck now => cleanup_stuck_creating_sandboxes st now
  | PoolOp.drain => cleanup_sandboxes st

def runPoolOps (st : PoolState) : List PoolOp → PoolState
  | [] => st
  | op :: ops => runPoolOps (applyPoolOp st op) ops

/-! ## Task registry and orchestrator (`agent_service.py`) -/

/-- The subset of `AgentTraceMetadata` (models.py lines 129-143) that the
claims touch.  `duration` is kept as abstract integer units. -/
structure TraceMetadata where
  traceId : Key
  inputTokensUsed : Nat
  outputTokensUsed : Nat
  duration : Nat
  numberOfSteps : Nat
  maxSteps : Nat
  completed : Bool
  final_state : Option String
deriving DecidableEq

/-- One `ActiveTask` record (models.py lines 263-271); steps are kept as
their 1-indexed numeric `stepId`s. -/
structure ActiveTask where
  message_id : Key
  instruction : String
  model_id : String
  steps : List Nat
  traceMetadata : TraceMetadata
deriving DecidableEq

/-- The mutable registries of an `AgentService` instance (lines 50-56) plus
the sandbox pool it delegates to.  Websockets and screenshots are opaque
identifiers. -/
structure AgentState where
  max_sandboxes : Nat
  active_tasks : List (Key × ActiveTask)
  task_websockets : List (Key × Nat)
  last_screenshot : List (Key × Option Nat)
  pool : PoolState
deriving DecidableEq

/-- The fresh metadata `process_user_task` installs (lines 127-128):
`trace.traceMetadata = AgentTraceMetadata(traceId=trace_id)`, all other
fields at their defaults. -/
def freshMetadata (trace_id : Key) : TraceMetadata :=
  { traceId := trace_id, inputTokensUsed := 0, outputTokensUsed := 0
    duration := 0, numberOfSteps := 0, maxSteps := 0
    completed := false, final_state := none }

/-- The `ActiveTask` built in `process_user_task` lines 134-141
(`trace.steps` was reset to `[]` at line 127). -/
def newActiveTask (trace_id : Key) (instruction model_id : String) : ActiveTask :=
  { message_id := trace_id, instruction := instruction, model_id := model_id
    steps := [], traceMetadata := freshMetadata trace_id }

/-- Ways `process_user_task` can raise instead of returning. -/
inductive ProcessError where
  | keyError
  | websocketMismatch
deriving DecidableEq

/-- What `process_user_task` produces: the registry state afterwards, whether
`_agent_processing` was scheduled (line 158), the `status` of the
`send_agent_start` event emitted here (line 146) if any, and the returned
trace id. -/
structure ProcessResult where
  st : AgentState
  scheduled : Bool
  sent_start_status : Option String
  returned : Key
deriving DecidableEq

/-- `AgentService.process_user_task` (lines 121-160).  Indexing
`self.task_websockets[trace_id]` raises `KeyError` when absent (line 131); a
different websocket raises `WebSocketException` (line 132); at or above the
admission ceiling it sends a `max_sandboxes_reached` start event and returns
the trace id without registering anything (lines 143-149); otherwise it
registers the record and screenshot entry and schedules the runner
(lines 152-158). -/
def process_user_task (st : AgentState) (trace_id : Key) (ws : Nat)
    (instruction model_id : String) : Except ProcessError ProcessResult :=
  match lookupA st.task_websockets trace_id with
  | none => Except.error ProcessError.keyError
  | some w =>
      if w ≠ ws then Except.error ProcessError.websocketMismatch
      else if st.max_sandboxes ≤ st.active_tasks.length then
        Except.ok
          { st := st, scheduled := false
            sent_start_status := some "max_sandboxes_reached"
            returned := trace_id }
      else
        Except.ok
          { st := { st with
              active_tasks :=
                insertA st.active_tasks trace_id
                  (newActiveTask trace_id instruction model_id)
              last_screenshot := insertA st.last_screenshot trace_id none }
            scheduled := true
            sent_start_status := none
            returned := trace_id }

/-- How the `try` body of `_agent_runner` (lines 175-233) terminates; one
constructor per arm of the `except` chain (lines 235-256), plus normal
completion. -/
inductive LoopExit where
  | normal
  | agentStop (msg : String)
  | websocketExc
  | timeoutExc
  | otherExc
deriving DecidableEq

/-- The `final_state` local once the `except` chain has run: it starts as
`"success"` (line 173) and is reassigned only by the matching arm
(lines 235-253).  An `AgentStopException` with any other message, and a
`WebSocketException`, leave it at `"success"`. -/
def finalStateOf : LoopExit → String
  | LoopExit.normal => "success"
  | LoopExit.agentStop msg =>
      if msg = "Max steps reached" then "max_steps_reached"
      else if msg = "Task not completed" then "stopped"
      else "success"
  | LoopExit.websocketExc => "success"
  | LoopExit.timeoutExc => "sandbox_timeout"
  | LoopExit.otherExc => "error"

/-- What the `finally` block of `_agent_runner` leaves behind: the registry
state, the persisted final metadata of the task, and whether
`release_sandbox` was invoked. -/
structure FinalizeResult where
  st : AgentState
  finalMetadata : TraceMetadata
  released : Bool
deriving DecidableEq

/-- The `finally` block of `_agent_runner` (lines 258-306).  Line 277 indexes
`self.active_tasks[message_id]` unconditionally, so a missing record would
raise `KeyError` (`none` here); otherwise the record's metadata receives
`final_state` and `completed=True` and is persisted (`store_model`), the three
registry entries for the key are deleted (lines 286-294), and
`release_sandbox` is always called (lines 301-306, its own failures
swallowed). -/
def agent_runner_finalize (st : AgentState) (key : Key) (ek : LoopExit) :
    Option FinalizeResult :=
  match lookupA st.active_tasks key with
  | none => none
  | some task =>
      let fs := finalStateOf ek
      let md := { task.traceMetadata with final_state := some fs, completed := true }
      let st1 := { st with
        active_tasks := eraseA st.active_tasks key
        task_websockets := eraseA st.task_websockets key
        last_screenshot := eraseA st.last_screenshot key }
      some
        { st := { st1 with pool := (release_sandbox st1.pool key).1 }
          finalMetadata := md
          released := true }

/-- The inputs `step_callback` (agent_service.py lines 324-436) reads from
its surroundings: the step number and ceiling, the task's `completed` flag as
observed at the entry checkpoint (line 330) and at the post-record checkpoint
(line 416), and whether `memory_step.token_usage` is present (line 381), which
gates the recording of the step. -/
structure StepInput where
  step_number : Nat
  max_steps : Nat
  completed_at_entry : Bool
  completed_after_record : Bool
  has_token_usage : Bool
deriving DecidableEq

/-- `ActiveTask.update_step` (models.py lines 297-304) on the step-id list:
an id at most the current length overwrites in place, otherwise the step is
appended. -/
def update_step (steps : List Nat) (stepId : Nat) : List Nat :=
  if stepId ≤ steps.length then steps.set (stepId - 1) stepId
  else steps ++ [stepId]

/-- The control flow of `step_callback`: the `Except.error` values are the
`AgentStopException` messages raised at lines 328, 331 and 417; the returned
list is the task's step list afterwards. -/
def step_callback (steps : List Nat) (inp : StepInput) :
    List Nat × Except String Unit :=
  if inp.max_steps < inp.step_number then
    (steps, Except.error "Max steps reached")
  else if inp.completed_at_entry then
    (steps, Except.error "Task not completed")
  else
    let steps1 :=
      if inp.has_token_usage then update_step steps inp.step_number else steps
    if inp.completed_after_record then (steps1, Except.error "Task not completed")
    else (steps1, Except.ok ())

/-! ## Archival worker (`archival_service.py`) -/

/-- Python's `str.split(sep)` for a single-character separator, on character
lists: `"".split("-") == ['']`, `"a-".split("-") == ['a', '']`, etc. -/
def splitOnChar (sep : Char) : List Char → List (List Char)
  | [] => [[]]
  | c :: rest =>
      match splitOnChar sep rest with
      | [] => [[]]
      | cur :: done => if c = sep then [] :: cur :: done else (c :: cur) :: done

/-- Python's `str.split(sep)` on strings. -/
def pySplit (s : String) (sep : Char) : List String :=
  (splitOnChar sep s.data).map (fun cs => String.mk cs)

/-- Outcomes of the external calls made for one candidate folder:
`_compress_folder` (returns `None` on failure), `_upload_to_huggingface` and
`_verify_file_in_repo` (return `False` on failure). -/
structure ArchiveEnv where
  compressOk : Bool
  uploadOk : Bool
  verifyOk : Bool
deriving DecidableEq

/-- What one iteration of the `_process_old_folders` loop did to the
candidate: whether compression was attempted, whether the source directory
was deleted (`shutil.rmtree`, line 304), whether an archive file was created,
and whether that archive was removed again (`unlink`, lines 289 and 310). -/
structure FolderResult where
  compressAttempted : Bool
  folderDeleted : Bool
  archiveCreated : Bool
  archiveDeleted : Bool
deriving DecidableEq

/-- A skipped candidate: nothing was created or deleted. -/
def folderSkipped : FolderResult :=
  { compressAttempted := false, folderDeleted := false
    archiveCreated := false, archiveDeleted := false }

/-- The compress → upload → verify → delete pipeline of
`_process_old_folders` (lines 276-316), entered once a candidate has passed
every skip guard.  On compression failure nothing was created (lines 279-281);
on upload failure the archive is unlinked and the folder kept (lines 286-290);
on verification failure both are kept (lines 312-316); only after verification
are the folder and then the archive deleted (lines 297-311). -/
def archive_attempt_result (env : ArchiveEnv) : FolderResult :=
  if !env.compressOk then
    { compressAttempted := true, folderDeleted := false
      archiveCreated := false, archiveDeleted := false }
  else if !env.uploadOk then
    { compressAttempted := true, folderDeleted := false
      archiveCreated := true, archiveDeleted := true }
  else if !env.verifyOk then
    { compressAttempted := true, folderDeleted := false
      archiveCreated := true, archiveDeleted := false }
  else
    { compressAttempted := true, folderDeleted := true
      archiveCreated := true, archiveDeleted := true }

/-- The body of the `for folder in trace_folders` loop of
`_process_old_folders` (lines 245-317) for one folder.  `parts` is
`folder_name.split("-", 2)`; for the two facts used here — `len(parts) < 2`
(line 254) and `parts[1]` (line 258) — the bounded split agrees with the
unbounded `pySplit` (a maxsplit of 2 only merges components from index 2 on).
The live-task check (line 261) precedes the age check (line 266), which
precedes the compress/upload/verify pipeline. -/
def process_folder (folder_name : String) (mtime now threshold_seconds : Int)
    (active_tasks : List Key) (env : ArchiveEnv) : FolderResult :=
  if (pySplit folder_name '-').length < 2 then folderSkipped
  else if active_tasks.contains ((pySplit folder_name '-').getD 1 "") then folderSkipped
  else if now - mtime < threshold_seconds then folderSkipped
  else archive_attempt_result env

/-! ## Association-list lemmas -/

theorem lookupA_eraseA_self {α : Type} (m : List (Key × α)) (key : Key) :
    lookupA (eraseA m key) key = none := by
  induction m with
  | nil => rfl
  | cons p rest ih =>
      obtain ⟨k, v⟩ := p
      by_cases h : k = key
      · simpa [eraseA, h] using ih
      · simp [eraseA, h, lookupA, ih]

theorem eraseA_of_lookupA_none {α : Type} (m : List (Key × α)) (key : Key)
    (h : lookupA m key = none) : eraseA m key = m := by
  induction m with
  | nil => rfl
  | cons p rest ih =>
      obtain ⟨k, v⟩ := p
      by_cases hk : k = key
      · simp [lookupA, hk] at h
      · simp [lookupA, hk] at h
        simp [eraseA, hk, ih h]

theorem lookupA_insertA_self {α : Type} (m : List (Key × α)) (key : Key) (v : α) :
    lookupA (insertA m key v) key = some v := by
  simp [insertA, lookupA]

theorem length_eraseA_le {α : Type} (m : List (Key × α)) (key : Key) :
    (eraseA m key).length ≤ m.length := by
  induction m with
  | nil => simp [eraseA]
  | cons p rest ih =>
      obtain ⟨k, v⟩ := p
      by_cases h : k = key <;> simp [eraseA, h] <;> omega

theorem countCreating_eraseA_le (m : List (Key × SlotMeta)) (key : Key) :
    countCreating (eraseA m key) ≤ countCreating m := by
  induction m with
  | nil => simp [eraseA]
  | cons p rest ih =>
      obtain ⟨k, v⟩ := p
      by_cases h : k = key <;> by_cases hs : v.state = SlotState.creating <;>
        simp [eraseA, h, countCreating, hs] <;> omega

theorem countCreating_insertA_creating (m : List (Key × SlotMeta)) (key : Key)
    (v : SlotMeta) (hv : v.state = SlotState.creating) :
    countCreating (insertA m key v) = countCreating (eraseA m key) + 1 := by
  simp [insertA, countCreating, hv]
  omega

theorem countCreating_updateA_state_eq (m : List (Key × SlotMeta)) (key : Key)
    (f : SlotMeta → SlotMeta) (hf : ∀ x, (f x).state = x.state) :
    countCreating (updateA m key f) = countCreating m := by
  induction m with
  | nil => rfl
  | cons p rest ih =>
      obtain ⟨k, v⟩ := p
      by_cases h : k = key <;> simp [updateA, h, countCreating, hf] at ih ⊢ <;> omega

theorem countCreating_updateA_ready_le (m : List (Key × SlotMeta)) (key : Key) :
    countCreating (updateA m key (fun mm => { mm with state := SlotState.ready })) ≤
      countCreating m := by
  induction m with
  | nil => simp [updateA, countCreating]
  | cons p rest ih =>
      obtain ⟨k, v⟩ := p
      by_cases h : k = key <;> by_cases hs : v.state = SlotState.creating <;>
        simp [updateA, h, countCreating, hs] at ih ⊢ <;> omega

theorem updateA_cons {α : Type} (k : Key) (v : α) (rest : List (Key × α))
    (key : Key) (f : α → α) :
    updateA ((k, v) :: rest) key f =
      (if k = key then (k, f v) else (k, v)) :: updateA rest key f := by
  by_cases h : k = key <;> simp [updateA, h]

theorem countCreating_updateA_ready_lt (m : List (Key × SlotMeta)) (key : Key)
    (mm : SlotMeta) (hl : lookupA m key = some mm)
    (hs : mm.state = SlotState.creating) :
    countCreating (updateA m key (fun x => { x with state := SlotState.ready })) + 1 ≤
      countCreating m := by
  induction m with
  | nil => simp [lookupA] at hl
  | cons p rest ih =>
      obtain ⟨k, v⟩ := p
      by_cases h : k = key
      · subst h
        simp [lookupA] at hl
        subst hl
        have h2 := countCreating_updateA_ready_le rest k
        rw [updateA_cons]
        simp only [if_pos rfl]
        rw [countCreating, countCreating]
        simp [hs]
        omega
      · simp [lookupA, h] at hl
        have h3 := ih hl
        rw [updateA_cons]
        simp only [if_neg h]
        rw [countCreating, countCreating]
        omega

theorem countCreating_filter_le (m : List (Key × SlotMeta)) (p : Key × SlotMeta → Bool) :
    countCreating (m.filter p) ≤ countCreating m := by
  induction m with
  | nil => simp [countCreating]
  | cons q rest ih =>
      by_cases h : p q <;> by_cases hs : q.2.state = SlotState.creating <;>
        simp [List.filter, h, countCreating, hs] <;> omega

/-! ## Branch characterizations of `acquire_sandbox` -/

theorem acquire_sandbox_fresh (st : PoolState) (key : Key) (now : Int)
    (hf : isFreshReady st key now = true) :
    acquire_sandbox st key now =
      { state := RespState.ready
        sandbox := lookupA st.sandboxes key
        st := { st with
          sandbox_metadata :=
            updateA st.sandbox_metadata key (fun m => { m with last_accessed := now }) }
        should_create := false
        expired_sandbox := none } := by
  simp [acquire_sandbox, hf]

theorem acquire_sandbox_creating_branch (st : PoolState) (key : Key) (now : Int)
    (hf : isFreshReady st key now = false) (hc : isCreating st key = true) :
    acquire_sandbox st key now =
      { state := RespState.creating, sandbox := none, st := st
        should_create := false, expired_sandbox := none } := by
  simp [acquire_sandbox, hf, hc]

theorem acquire_sandbox_no_slot_branch (st : PoolState) (key : Key) (now : Int)
    (hf : isFreshReady st key now = false) (hc : isCreating st key = false)
    (he : lookupA st.sandboxes key = none) :
    acquire_sandbox st key now =
      if st.max_sandboxes ≤ st.sandboxes.length + countCreating st.sandbox_metadata then
        { state := RespState.max_sandboxes_reached, sandbox := none, st := st
          should_create := false, expired_sandbox := none }
      else
        { state := RespState.creating, sandbox := none
          st := { st with
            sandbox_metadata :=
              insertA st.sandbox_metadata key
                { state := SlotState.creating, created_at := now, last_accessed := now } }
          should_create := true, expired_sandbox := none } := by
  simp [acquire_sandbox, hf, hc, he]

theorem acquire_sandbox_expired_branch (st : PoolState) (key : Key) (now : Int)
    (hf : isFreshReady st key now = false) (hc : isCreating st key = false)
    (he : (lookupA st.sandboxes key).isSome = true) :
    acquire_sandbox st key now =
      if st.max_sandboxes ≤
          (eraseA st.sandboxes key).length + countCreating (eraseA st.sandbox_metadata key) then
        { state := RespState.max_sandboxes_reached, sandbox := none
          st := { st with
            sandboxes := eraseA st.sandboxes key
            sandbox_metadata := eraseA st.sandbox_metadata key }
          should_create := false, expired_sandbox := lookupA st.sandboxes key }
      else
        { state := RespState.creating, sandbox := none
          st := { st with
            sandboxes := eraseA st.sandboxes key
            sandbox_metadata :=
              insertA (eraseA st.sandbox_metadata key) key
                { state := SlotState.creating, created_at := now, last_accessed := now } }
          should_create := true, expired_sandbox := lookupA st.sandboxes key } := by
  simp [acquire_sandbox, hf, hc, he]

theorem isFreshReady_false_of_isCreating (st : PoolState) (key : Key) (now : Int)
    (hc : isCreating st key = true) : isFreshReady st key now = false := by
  unfold isCreating at hc
  unfold isFreshReady
  cases hm : lookupA st.sandbox_metadata key with
  | none => simp [hm] at hc
  | some m =>
      rw [hm] at hc
      simp at hc
      simp [hm, hc]

/-! ## Capacity preservation, operation by operation -/

theorem countLive_acquire (st : PoolState) (key : Key) (now : Int)
    (h : countLive st ≤ st.max_sandboxes) :
    countLive (acquire_sandbox st key now).st ≤ st.max_sandboxes ∧
    (acquire_sandbox st key now).st.max_sandboxes = st.max_sandboxes := by
  cases hf : isFreshReady st key now with
  | true =>
      rw [acquire_sandbox_fresh st key now hf]
      refine ⟨?_, rfl⟩
      have e := countCreating_updateA_state_eq st.sandbox_metadata key
        (fun m => { m with last_accessed := now }) (fun x => rfl)
      simp only [countLive] at h ⊢
      omega
  | false =>
    cases hc : isCreating st key with
    | true =>
        rw [acquire_sandbox_creating_branch st key now hf hc]
        exact ⟨h, rfl⟩
    | false =>
      cases he : lookupA st.sandboxes key with
      | none =>
          rw [acquire_sandbox_no_slot_branch st key now hf hc he]
          by_cases hcap :
              st.max_sandboxes ≤ st.sandboxes.length + countCreating st.sandbox_metadata
          · rw [if_pos hcap]
            exact ⟨h, rfl⟩
          · rw [if_neg hcap]
            refine ⟨?_, rfl⟩
            have l3 := countCreating_insertA_creating st.sandbox_metadata key
              { state := SlotState.creating, created_at := now, last_accessed := now } rfl
            have l4 := countCreating_eraseA_le st.sandbox_metadata key
            simp only [countLive] at h ⊢
            omega
      | some s =>
          rw [acquire_sandbox_expired_branch st key now hf hc (by simp [he])]
          by_cases hcap : st.max_sandboxes ≤
              (eraseA st.sandboxes key).length + countCreating (eraseA st.sandbox_metadata key)
          · rw [if_pos hcap]
            refine ⟨?_, rfl⟩
            have l1 := length_eraseA_le st.sandboxes key
            have l2 := countCreating_eraseA_le st.sandbox_metadata key
            simp only [countLive] at h ⊢
            omega
          · rw [if_neg hcap]
            refine ⟨?_, rfl⟩
            have l1 := length_eraseA_le st.sandboxes key
            have l3 := countCreating_insertA_creating (eraseA st.sandbox_metadata key) key
              { state := SlotState.creating, created_at := now, last_accessed := now } rfl
            have l4 := countCreating_eraseA_le (eraseA st.sandbox_metadata key) key
            simp only [countLive] at h ⊢
            omega

theorem countLive_bg (st : PoolState) (key : Key) (provisioned : Option Nat)
    (h : countLive st ≤ st.max_sandboxes) :
    countLive (create_sandbox_background st key provisioned).1 ≤ st.max_sandboxes ∧
    (create_sandbox_background st key provisioned).1.max_sandboxes = st.max_sandboxes := by
  cases provisioned with
  | none =>
      refine ⟨?_, rfl⟩
      have l2 := countCreating_eraseA_le st.sandbox_metadata key
      simp only [create_sandbox_background, countLive] at h ⊢
      omega
  | some handle =>
      cases hm : lookupA st.sandbox_metadata key with
      | none =>
          have hcb : (create_sandbox_background st key (some handle)).1 = st := by
            simp [create_sandbox_background, hm]
          rw [hcb]
          exact ⟨h, rfl⟩
      | some m =>
          by_cases hs : m.state = SlotState.creating
          · have hcb : (create_sandbox_background st key (some handle)).1 =
                { st with
                  sandboxes := insertA st.sandboxes key handle
                  sandbox_metadata :=
                    updateA st.sandbox_metadata key
                      (fun mm => { mm with state := SlotState.ready }) } := by
              simp [create_sandbox_background, hm, hs]
            rw [hcb]
            refine ⟨?_, rfl⟩
            have l1 := length_eraseA_le st.sandboxes key
            have l2 := countCreating_updateA_ready_lt st.sandbox_metadata key m hm hs
            simp only [countLive, insertA, List.length_cons] at h ⊢
            omega
          · have hcb : (create_sandbox_background st key (some handle)).1 = st := by
              simp [create_sandbox_background, hm, hs]
            rw [hcb]
            exact ⟨h, rfl⟩

theorem countLive_release (st : PoolState) (key : Key)
    (h : countLive st ≤ st.max_sandboxes) :
    countLive (release_sandbox st key).1 ≤ st.max_sandboxes ∧
    (release_sandbox st key).1.max_sandboxes = st.max_sandboxes := by
  refine ⟨?_, rfl⟩
  have l1 := length_eraseA_le st.sandboxes key
  have l2 := countCreating_eraseA_le st.sandbox_metadata key
  simp only [release_sandbox, countLive] at h ⊢
  omega

theorem countLive_cleanupStuck (st : PoolState) (now : Int)
    (h : countLive st ≤ st.max_sandboxes) :
    countLive (cleanup_stuck_creating_sandboxes st now) ≤ st.max_sandboxes ∧
    (cleanup_stuck_creating_sandboxes st now).max_sandboxes = st.max_sandboxes := by
  refine ⟨?_, rfl⟩
  have l1 := List.length_filter_le
    (fun p : Key × Nat =>
      !(((st.sandbox_metadata.filter (fun q => isStuck now q.2)).map
          (fun q => q.1)).contains p.1))
    st.sandboxes
  have l2 := countCreating_filter_le st.sandbox_metadata (fun p => !(isStuck now p.2))
  simp only [cleanup_stuck_creating_sandboxes, countLive] at h ⊢
  omega

theorem countLive_applyPoolOp (st : PoolState) (op : PoolOp)
    (h : countLive st ≤ st.max_sandboxes) :
    countLive (applyPoolOp st op) ≤ st.max_sandboxes ∧
    (applyPoolOp st op).max_sandboxes = st.max_sandboxes := by
  cases op with
  | acquire key now => exact countLive_acquire st key now h
  | bgFinish key provisioned => exact countLive_bg st key provisioned h
  | release key => exact countLive_release st key h
  | cleanupStuck now => exact countLive_cleanupStuck st now h
  | drain =>
      refine ⟨?_, rfl⟩
      have l2 := countCreating_filter_le st.sandbox_metadata
        (fun p => !((st.sandboxes.map (fun q => q.1)).contains p.1))
      simp only [applyPoolOp, cleanup_sandboxes, countLive, List.length_nil] at h ⊢
      omega

theorem countLive_runPoolOps (st : PoolState) (ops : List PoolOp)
    (h : countLive st ≤ st.max_sandboxes) :
    countLive (runPoolOps st ops) ≤ st.max_sandboxes ∧
    (runPoolOps st ops).max_sandboxes = st.max_sandboxes := by
  induction ops generalizing st with
  | nil => exact ⟨h, rfl⟩
  | cons op ops ih =>
      have h1 := countLive_applyPoolOp st op h
      have h2 := ih (applyPoolOp st op) (by rw [h1.2]; exact h1.1)
      rw [runPoolOps]
      exact ⟨by rw [← h1.2]; exact h2.1, by rw [← h1.2]; exact h2.2⟩

/-! ## Pool claims -/

/-- Claim C1: for every sequence of pool operations from the empty pool, the
total count of slots in state creating or ready never exceeds the configured
`max_sandboxes`; and `acquire_sandbox` for a key with no registered slot
answers `max_sandboxes_reached` and registers nothing whenever the count of
ready plus creating slots is already at or above `max_sandboxes`. -/
theorem pool_capacity_never_exceeded :
    (∀ (max : Nat) (ops : List PoolOp),
        countLive (runPoolOps (initPool max) ops) ≤ max) ∧
    (∀ (st : PoolState) (key : Key) (now : Int),
        lookupA st.sandboxes key = none →
        lookupA st.sandbox_metadata key = none →
        st.max_sandboxes ≤ countLive st →
        (acquire_sandbox st key now).state = RespState.max_sandboxes_reached ∧
        (acquire_sandbox st key now).st = st ∧
        (acquire_sandbox st key now).should_create = false) := by
  constructor
  · intro max ops
    exact (countLive_runPoolOps (initPool max) ops
      (by simp [countLive, initPool, countCreating])).1
  · intro st key now h1 h2 h3
    have hf : isFreshReady st key now = false := by simp [isFreshReady, h1]
    have hc : isCreating st key = false := by simp [isCreating, h2]
    rw [acquire_sandbox_no_slot_branch st key now hf hc h1,
      if_pos (by simpa [countLive] using h3)]
    exact ⟨rfl, rfl, rfl⟩

/-- Concrete instantiation of `pool_capacity_never_exceeded`. -/
theorem pool_capacity_never_exceeded_witness :
    countLive (runPoolOps (initPool 1) [PoolOp.acquire "a" 0, PoolOp.acquire "b" 0]) ≤ 1 ∧
    (lookupA (initPool 0).sandboxes "k" = none ∧
      lookupA (initPool 0).sandbox_metadata "k" = none ∧
      (initPool 0).max_sandboxes ≤ countLive (initPool 0)) ∧
    (acquire_sandbox (initPool 0) "k" 0).state = RespState.max_sandboxes_reached :=
  ⟨pool_capacity_never_exceeded.1 1 [PoolOp.acquire "a" 0, PoolOp.acquire "b" 0],
   ⟨rfl, rfl, by decide⟩,
   (pool_capacity_never_exceeded.2 (initPool 0) "k" 0 rfl rfl (by decide)).1⟩

/-- Claim C6: when a stale slot exists for the key (a sandbox is registered
but is neither fresh-ready nor creating), `acquire_sandbox` removes it from
both maps before the capacity check, defers its teardown out-of-band via the
`expired_sandbox` local, counts the remaining creating-or-ready slots
excluding it, and if that remaining count is at or above the limit answers
`max_sandboxes_reached` with nothing registered for the key. -/
theorem acquire_detaches_stale_before_capacity
    (st : PoolState) (key : Key) (now : Int)
    (hs : (lookupA st.sandboxes key).isSome = true)
    (hf : isFreshReady st key now = false)
    (hc : isCreating st key = false)
    (hcap : st.max_sandboxes ≤
      (eraseA st.sandboxes key).length + countCreating (eraseA st.sandbox_metadata key)) :
    (acquire_sandbox st key now).state = RespState.max_sandboxes_reached ∧
    (acquire_sandbox st key now).st =
      { st with
        sandboxes := eraseA st.sandboxes key
        sandbox_metadata := eraseA st.sandbox_metadata key } ∧
    lookupA (acquire_sandbox st key now).st.sandboxes key = none ∧
    lookupA (acquire_sandbox st key now).st.sandbox_metadata key = none ∧
    (acquire_sandbox st key now).should_create = false ∧
    (acquire_sandbox st key now).expired_sandbox = lookupA st.sandboxes key := by
  rw [acquire_sandbox_expired_branch st key now hf hc hs, if_pos hcap]
  exact ⟨rfl, rfl, lookupA_eraseA_self _ _, lookupA_eraseA_self _ _, rfl, rfl⟩

/-- Concrete instantiation of `acquire_detaches_stale_before_capacity`: one
expired ready slot, capacity zero. -/
theorem acquire_detaches_stale_before_capacity_witness :
    (acquire_sandbox
        { max_sandboxes := 0
          sandboxes := [("k", 7)]
          sandbox_metadata :=
            [("k", { state := SlotState.ready, created_at := 0, last_accessed := 0 })] }
        "k" 1000).state = RespState.max_sandboxes_reached ∧
    (acquire_sandbox
        { max_sandboxes := 0
          sandboxes := [("k", 7)]
          sandbox_metadata :=
            [("k", { state := SlotState.ready, created_at := 0, last_accessed := 0 })] }
        "k" 1000).expired_sandbox = some 7 := by
  have h := acquire_detaches_stale_before_capacity
    { max_sandboxes := 0
      sandboxes := [("k", 7)]
      sandbox_metadata :=
        [("k", { state := SlotState.ready, created_at := 0, last_accessed := 0 })] }
    "k" 1000 (by decide) (by decide) (by decide) (by decide)
  refine ⟨h.1, ?_⟩
  rw [h.2.2.2.2.2]
  rfl

/-- Claim C7: while a slot for the key is in state creating, `acquire_sandbox`
returns `creating` with no handle, changes nothing, and triggers no second
provisioning; a second acquire on the resulting state observes the same. -/
theorem acquire_idempotent_while_creating
    (st : PoolState) (key : Key) (now now2 : Int)
    (hc : isCreating st key = true) :
    (acquire_sandbox st key now).state = RespState.creating ∧
    (acquire_sandbox st key now).sandbox = none ∧
    (acquire_sandbox st key now).st = st ∧
    (acquire_sandbox st key now).should_create = false ∧
    (acquire_sandbox (acquire_sandbox st key now).st key now2).state = RespState.creating ∧
    (acquire_sandbox (acquire_sandbox st key now).st key now2).should_create = false := by
  have hf := isFreshReady_false_of_isCreating st key now hc
  have h1 := acquire_sandbox_creating_branch st key now hf hc
  have hf2 := isFreshReady_false_of_isCreating st key now2 hc
  have h2 := acquire_sandbox_creating_branch st key now2 hf2 hc
  refine ⟨?_, ?_, ?_, ?_, ?_, ?_⟩ <;> simp only [h1, h2]

/-- Concrete instantiation of `acquire_idempotent_while_creating`. -/
theorem acquire_idempotent_while_creating_witness :
    (acquire_sandbox
        { max_sandboxes := 1
          sandboxes := []
          sandbox_metadata :=
            [("k", { state := SlotState.creating, created_at := 0, last_accessed := 0 })] }
        "k" 5).state = RespState.creating ∧
    (acquire_sandbox
        { max_sandboxes := 1
          sandboxes := []
          sandbox_metadata :=
            [("k", { state := SlotState.creating, created_at := 0, last_accessed := 0 })] }
        "k" 5).should_create = false :=
  ⟨(acquire_idempotent_while_creating _ "k" 5 6 (by decide)).1,
   (acquire_idempotent_while_creating
      { max_sandboxes := 1
        sandboxes := []
        sandbox_metadata :=
          [("k", { state := SlotState.creating, created_at := 0, last_accessed := 0 })] }
      "k" 5 6 (by decide)).2.2.2.1⟩

/-- Claim C8: `release_sandbox` is idempotent and total — it removes whatever
slot and metadata exist for the key, is a no-op when nothing exists for the
key, never surfaces a teardown failure to the caller, and releasing again
changes nothing. -/
theorem release_idempotent_total
    (st : PoolState) (key : Key) (killOk : Bool) :
    release_sandbox_run st key killOk = Except.ok (release_sandbox st key).1 ∧
    lookupA (release_sandbox st key).1.sandboxes key = none ∧
    lookupA (release_sandbox st key).1.sandbox_metadata key = none ∧
    (lookupA st.sandboxes key = none → lookupA st.sandbox_metadata key = none →
      (release_sandbox st key).1 = st ∧ (release_sandbox st key).2 = none) ∧
    release_sandbox (release_sandbox st key).1 key = ((release_sandbox st key).1, none) := by
  refine ⟨?_, lookupA_eraseA_self _ _, lookupA_eraseA_self _ _, ?_, ?_⟩
  · cases hk : lookupA st.sandboxes key with
    | none => simp [release_sandbox_run, release_sandbox, hk]
    | some hdl =>
        cases killOk <;> simp [release_sandbox_run, release_sandbox, killSandbox, hk]
  · intro h1 h2
    constructor
    · show ({ st with
          sandboxes := eraseA st.sandboxes key
          sandbox_metadata := eraseA st.sandbox_metadata key } : PoolState) = st
      rw [eraseA_of_lookupA_none _ _ h1, eraseA_of_lookupA_none _ _ h2]
    · exact h1
  · have e1 : eraseA (eraseA st.sandboxes key) key = eraseA st.sandboxes key :=
      eraseA_of_lookupA_none _ _ (lookupA_eraseA_self _ _)
    have e2 : eraseA (eraseA st.sandbox_metadata key) key = eraseA st.sandbox_metadata key :=
      eraseA_of_lookupA_none _ _ (lookupA_eraseA_self _ _)
    simp [release_sandbox, e1, e2, lookupA_eraseA_self]

/-- Concrete instantiation of `release_idempotent_total`: releasing a key
that was never acquired, with a failing teardown, still succeeds and is a
no-op. -/
theorem release_idempotent_total_witness :
    release_sandbox_run (initPool 1) "k" false =
      Except.ok (release_sandbox (initPool 1) "k").1 ∧
    (release_sandbox (initPool 1) "k").1 = initPool 1 ∧
    (release_sandbox (initPool 1) "k").2 = none :=
  ⟨(release_idempotent_total (initPool 1) "k" false).1,
   ((release_idempotent_total (initPool 1) "k" false).2.2.2.1 rfl rfl).1,
   ((release_idempotent_total (initPool 1) "k" false).2.2.2.1 rfl rfl).2⟩

/-- Claim C10: if background provisioning completes for a key whose slot was
released during creation (metadata gone or no longer creating), the fresh
handle is killed and never registered — the state is unchanged; and if
provisioning raised, the key's metadata is deleted so the next acquire starts
cleanly. -/
theorem background_completion_respects_release
    (st : PoolState) (key : Key) (handle : Nat) :
    (isCreating st key = false →
      create_sandbox_background st key (some handle) = (st, true)) ∧
    create_sandbox_background st key none =
      ({ st with sandbox_metadata := eraseA st.sandbox_metadata key }, false) ∧
    lookupA (create_sandbox_background st key none).1.sandbox_metadata key = none := by
  refine ⟨?_, rfl, ?_⟩
  · intro h
    unfold isCreating at h
    cases hm : lookupA st.sandbox_metadata key with
    | none => simp [create_sandbox_background, hm]
    | some m =>
        rw [hm] at h
        simp at h
        simp [create_sandbox_background, hm, h]
  · show lookupA (eraseA st.sandbox_metadata key) key = none
    exact lookupA_eraseA_self _ _

/-- Concrete instantiation of `background_completion_respects_release`: the
key was released while creating (no metadata left), so the fresh sandbox is
killed and nothing is registered. -/
theorem background_completion_respects_release_witness :
    create_sandbox_background (initPool 1) "k" (some 5) = (initPool 1, true) :=
  (background_completion_respects_release (initPool 1) "k" 5).1 rfl

/-! ## Orchestrator claims -/

theorem finalStateOf_cases (ek : LoopExit) :
    finalStateOf ek = "success" ∨ finalStateOf ek = "stopped" ∨
    finalStateOf ek = "max_steps_reached" ∨ finalStateOf ek = "sandbox_timeout" ∨
    finalStateOf ek = "error" := by
  cases ek with
  | normal => exact Or.inl rfl
  | websocketExc => exact Or.inl rfl
  | timeoutExc => exact Or.inr (Or.inr (Or.inr (Or.inl rfl)))
  | otherExc => exact Or.inr (Or.inr (Or.inr (Or.inr rfl)))
  | agentStop msg =>
      simp only [finalStateOf]
      by_cases h1 : msg = "Max steps reached"
      · rw [if_pos h1]
        exact Or.inr (Or.inr (Or.inl rfl))
      · rw [if_neg h1]
        by_cases h2 : msg = "Task not completed"
        · rw [if_pos h2]
          exact Or.inr (Or.inl rfl)
        · rw [if_neg h2]
          exact Or.inl rfl

/-- Claim C2: however the execution loop exits, finalization records exactly
one of the five terminal states in the task's metadata, removes the task
record and its websocket and screenshot entries from the registries, and
always releases the sandbox for its key. -/
theorem agent_runner_finalization (st : AgentState) (key : Key) (ek : LoopExit)
    (task : ActiveTask) (h : lookupA st.active_tasks key = some task) :
    ∃ r, agent_runner_finalize st key ek = some r ∧
      (finalStateOf ek = "success" ∨ finalStateOf ek = "stopped" ∨
        finalStateOf ek = "max_steps_reached" ∨ finalStateOf ek = "sandbox_timeout" ∨
        finalStateOf ek = "error") ∧
      r.finalMetadata.final_state = some (finalStateOf ek) ∧
      r.finalMetadata.completed = true ∧
      lookupA r.st.active_tasks key = none ∧
      lookupA r.st.task_websockets key = none ∧
      lookupA r.st.last_screenshot key = none ∧
      r.released = true ∧
      r.st.pool = (release_sandbox st.pool key).1 ∧
      lookupA r.st.pool.sandboxes key = none ∧
      lookupA r.st.pool.sandbox_metadata key = none := by
  unfold agent_runner_finalize
  rw [h]
  exact ⟨_, rfl, finalStateOf_cases ek, rfl, rfl,
    lookupA_eraseA_self _ _, lookupA_eraseA_self _ _, lookupA_eraseA_self _ _,
    rfl, rfl, lookupA_eraseA_self _ _, lookupA_eraseA_self _ _⟩

/-- Sample registry state used to instantiate the orchestrator theorems. -/
def sampleTask : ActiveTask := newActiveTask "t" "open the browser" "model-a"

def sampleAgentState : AgentState :=
  { max_sandboxes := 1
    active_tasks := [("t", sampleTask)]
    task_websockets := [("t", 3), ("u", 4)]
    last_screenshot := [("t", none)]
    pool := initPool 1 }

/-- Concrete instantiation of `agent_runner_finalization`: a sandbox-timeout
exit of the loop for a registered task. -/
theorem agent_runner_finalization_witness :
    (agent_runner_finalize sampleAgentState "t" LoopExit.timeoutExc).isSome = true ∧
    finalStateOf LoopExit.timeoutExc = "sandbox_timeout" := by
  obtain ⟨r, hr, -⟩ :=
    agent_runner_finalization sampleAgentState "t" LoopExit.timeoutExc sampleTask rfl
  exact ⟨by rw [hr]; rfl, rfl⟩

/-- Claim C9: when the active-task count is at or above the orchestrator's
own admission ceiling, `process_user_task` sends a `max_sandboxes_reached`
start event and returns the trace id without registering a task record or
scheduling the execution loop; otherwise it registers the record, schedules
the loop, and returns the trace id. -/
theorem process_user_task_admission
    (st : AgentState) (trace_id : Key) (ws : Nat) (instruction model_id : String)
    (hws : lookupA st.task_websockets trace_id = some ws) :
    (st.max_sandboxes ≤ st.active_tasks.length →
      process_user_task st trace_id ws instruction model_id =
        Except.ok
          { st := st, scheduled := false
            sent_start_status := some "max_sandboxes_reached"
            returned := trace_id }) ∧
    (st.active_tasks.length < st.max_sandboxes →
      ∃ r, process_user_task st trace_id ws instruction model_id = Except.ok r ∧
        r.scheduled = true ∧ r.returned = trace_id ∧ r.sent_start_status = none ∧
        lookupA r.st.active_tasks trace_id =
          some (newActiveTask trace_id instruction model_id)) := by
  constructor
  · intro hcap
    simp only [process_user_task, hws]
    rw [if_neg (fun hne : ws ≠ ws => hne rfl), if_pos hcap]
  · intro hcap
    simp only [process_user_task, hws]
    rw [if_neg (fun hne : ws ≠ ws => hne rfl),
      if_neg (show ¬ st.max_sandboxes ≤ st.active_tasks.length by omega)]
    exact ⟨_, rfl, rfl, rfl, rfl, lookupA_insertA_self _ _ _⟩

/-- Concrete instantiation of `process_user_task_admission`: at a ceiling of
one with one active task, admission of a second task is refused; with a
ceiling of two it is registered and scheduled. -/
theorem process_user_task_admission_witness :
    process_user_task sampleAgentState "u" 4 "do" "m" =
      Except.ok
        { st := sampleAgentState, scheduled := false
          sent_start_status := some "max_sandboxes_reached"
          returned := "u" } ∧
    (∃ r, process_user_task { sampleAgentState with max_sandboxes := 2 } "u" 4 "do" "m" =
        Except.ok r ∧
      r.scheduled = true ∧ r.returned = "u" ∧ r.sent_start_status = none ∧
      lookupA r.st.active_tasks "u" = some (newActiveTask "u" "do" "m")) :=
  ⟨(process_user_task_admission sampleAgentState "u" 4 "do" "m" rfl).1 (by decide),
   (process_user_task_admission { sampleAgentState with max_sandboxes := 2 }
      "u" 4 "do" "m" rfl).2 (by decide)⟩

/-- Claim C4: if the task's `completed` flag is true when `step_callback` is
entered, the callback raises an `AgentStopException` before recording any
step — at the entry checkpoint it raises "Task not completed" (unless the
step-ceiling check fires first), and the step list is unchanged. -/
theorem step_callback_stops_on_completed (steps : List Nat) (inp : StepInput)
    (h : inp.completed_at_entry = true) :
    (step_callback steps inp).1 = steps ∧
    (∃ msg, (step_callback steps inp).2 = Except.error msg) ∧
    (inp.step_number ≤ inp.max_steps →
      (step_callback steps inp).2 = Except.error "Task not completed") := by
  unfold step_callback
  by_cases hm : inp.max_steps < inp.step_number
  · rw [if_pos hm]
    exact ⟨rfl, ⟨"Max steps reached", rfl⟩, fun hle => absurd hm (by omega)⟩
  · rw [if_neg hm, if_pos h]
    exact ⟨rfl, ⟨"Task not completed", rfl⟩, fun _ => rfl⟩

/-- Concrete instantiation of `step_callback_stops_on_completed`. -/
theorem step_callback_stops_on_completed_witness :
    (step_callback [1]
        { step_number := 2, max_steps := 10, completed_at_entry := true
          completed_after_record := true, has_token_usage := true }).1 = [1] ∧
    (step_callback [1]
        { step_number := 2, max_steps := 10, completed_at_entry := true
          completed_after_record := true, has_token_usage := true }).2 =
      Except.error "Task not completed" :=
  ⟨(step_callback_stops_on_completed [1]
      { step_number := 2, max_steps := 10, completed_at_entry := true
        completed_after_record := true, has_token_usage := true } rfl).1,
   (step_callback_stops_on_completed [1]
      { step_number := 2, max_steps := 10, completed_at_entry := true
        completed_after_record := true, has_token_usage := true } rfl).2.2 (by decide)⟩

/-! ## Archival claims -/

/-- Claim C3: in every sweep iteration the original directory is deleted only
after compression, upload and verification all succeeded; a compression
failure creates nothing and keeps the source; an upload failure keeps the
source and removes only the local archive copy; a verification failure keeps
both the source and the archive. -/
theorem archival_deletes_only_after_verified_upload
    (folder_name : String) (mtime now threshold : Int)
    (active : List Key) (env : ArchiveEnv) :
    ((process_folder folder_name mtime now threshold active env).folderDeleted = true →
      env.compressOk = true ∧ env.uploadOk = true ∧ env.verifyOk = true) ∧
    (env.compressOk = false →
      (process_folder folder_name mtime now threshold active env).folderDeleted = false ∧
      (process_folder folder_name mtime now threshold active env).archiveCreated = false) ∧
    (env.compressOk = true → env.uploadOk = false →
      (process_folder folder_name mtime now threshold active env).folderDeleted = false ∧
      ((process_folder folder_name mtime now threshold active env).archiveCreated = true →
        (process_folder folder_name mtime now threshold active env).archiveDeleted = true)) ∧
    (env.compressOk = true → env.uploadOk = true → env.verifyOk = false →
      (process_folder folder_name mtime now threshold active env).folderDeleted = false ∧
      (process_folder folder_name mtime now threshold active env).archiveDeleted = false) := by
  obtain ⟨c, u, v⟩ := env
  have hmain :
      process_folder folder_name mtime now threshold active ⟨c, u, v⟩ = folderSkipped ∨
      process_folder folder_name mtime now threshold active ⟨c, u, v⟩ =
        archive_attempt_result ⟨c, u, v⟩ := by
    unfold process_folder
    split
    · exact Or.inl rfl
    · split
      · exact Or.inl rfl
      · split
        · exact Or.inl rfl
        · exact Or.inr rfl
  rcases hmain with h | h <;> rw [h] <;> cases c <;> cases u <;> cases v <;> decide

/-- Concrete instantiation of `archival_deletes_only_after_verified_upload`:
an upload failure keeps the source directory, and the created archive copy is
removed. -/
theorem archival_deletes_only_after_verified_upload_witness :
    (process_folder "trace-x-m" 0 10000 60 []
        { compressOk := true, uploadOk := false, verifyOk := true }).folderDeleted = false ∧
    ((process_folder "trace-x-m" 0 10000 60 []
        { compressOk := true, uploadOk := false, verifyOk := true }).archiveCreated = true →
      (process_folder "trace-x-m" 0 10000 60 []
        { compressOk := true, uploadOk := false, verifyOk := true }).archiveDeleted = true) :=
  (archival_deletes_only_after_verified_upload "trace-x-m" 0 10000 60 []
    { compressOk := true, uploadOk := false, verifyOk := true }).2.2.1 rfl rfl

/-- Claim C5: a candidate directory whose trace id (second component of the
dash-split folder name) is in the live-task set is never selected for
compression, whatever its age. -/
theorem archival_never_compresses_live_tasks
    (folder_name : String) (mtime now threshold : Int)
    (active : List Key) (env : ArchiveEnv)
    (hparts : 2 ≤ (pySplit folder_name '-').length)
    (hlive : active.contains ((pySplit folder_name '-').getD 1 "") = true) :
    process_folder folder_name mtime now threshold active env = folderSkipped ∧
    (process_folder folder_name mtime now threshold active env).compressAttempted = false := by
  have h1 : ¬ (pySplit folder_name '-').length < 2 := by omega
  unfold process_folder
  rw [if_neg h1, if_pos hlive]
  exact ⟨rfl, rfl⟩

/-- Concrete instantiation of `archival_never_compresses_live_tasks`: an old
folder whose trace id is live is skipped. -/
theorem archival_never_compresses_live_tasks_witness :
    process_folder "trace-abc-model" 0 100000 60 ["abc"]
      { compressOk := true, uploadOk := true, verifyOk := true } = folderSkipped :=
  (archival_never_compresses_live_tasks "trace-abc-model" 0 100000 60 ["abc"]
    { compressOk := true, uploadOk := true, verifyOk := true }
    (by decide) (by decide)).1
